import Mathlib

/-!
Verification of the `save-daily-snapshot` Supabase edge function of the
stockdash repository (`supabase/functions/save-daily-snapshot/index.ts`).

The function is embedded shallowly:
* JavaScript numbers are modelled as rationals (`Rat`); a field that may be
  absent, `null` or otherwise falsy is an `Option` whose `none` case models
  the falsy value, so the JS default `x || 0` becomes `Option.getD · 0`.
* The page-fetch `while` loop (lines 86-118 of index.ts) is a fuel-indexed
  recursion: the guard `page <= 50` with `page` starting at 1 gives fuel 50.
* External effects that the function merely consumes — the outcome of
  `supabase.auth.getUser()`, of `new URL(apiUrl)` plus its protocol check,
  of each upstream `fetch`, and of the database upsert — are oracle
  parameters collected in a context record, so the handler itself is a pure
  function of the request, the context, and the snapshot-table state.
-/

namespace StockDash

/-- A catalog item as consumed by the snapshot job: only `availableQuantity`
and `price` are read (index.ts lines 121-125). `none` models a missing,
`null` or otherwise falsy field. -/
structure Product where
  availableQuantity : Option Rat
  price : Option Rat
deriving DecidableEq, Repr

/-- One parsed JSON page body as read by the loop: the three alternative
item-array keys of line 109 (`data?.results || data?.data || data?.products`)
and the `total` field of line 113. `none` models an absent or falsy key;
`some l` models a key holding an array `l` (arrays, even empty, are truthy
in JS). -/
structure PageData where
  results : Option (List Product)
  data : Option (List Product)
  products : Option (List Product)
  total : Option Int
deriving DecidableEq, Repr

/-- `data?.results || data?.data || data?.products || []` (line 109): the
first present (truthy) key wins, even when it holds an empty array. -/
def pageProducts (d : PageData) : List Product :=
  match d.results with
  | some l => l
  | none =>
    match d.data with
    | some l => l
    | none =>
      match d.products with
      | some l => l
      | none => []

/-- The requested page size (`const limit = 100`, line 89). -/
def limit : Nat := 100

/-- The hard cap on fetched pages (`page <= 50`, line 92). -/
def pageCap : Nat := 50

/-- `allProducts.length >= (data?.total || Infinity)` (line 113): a falsy
`total` (absent, `null`, or `0`) becomes `Infinity`, which no finite count
reaches. -/
def reachedTotal (total : Option Int) (len : Nat) : Bool :=
  match total with
  | some t => if t = 0 then false else decide (t ≤ (len : Int))
  | none => false

/-- The page-fetch `while` loop (lines 92-118). `api page` is the oracle for
the upstream fetch of that page: `none` models a failed request or a
non-ok response (which makes line 105 throw), `some d` the parsed body.
`fuel` is the number of iterations still allowed by the `page <= 50` guard;
`acc` is `allProducts`; `count` is the number of fetches performed so far.
On success it returns the accumulated items and the number of pages fetched;
on failure, the number of fetches performed (the failing one included). -/
def fetchLoop (api : Nat → Option PageData) :
    Nat → Nat → List Product → Nat → Except Nat (List Product × Nat)
  | 0, _, acc, count => Except.ok (acc, count)
  | fuel + 1, page, acc, count =>
    match api page with
    | none => Except.error (count + 1)
    | some d =>
      let products := pageProducts d
      let acc' := acc ++ products
      if products.length < limit ∨ reachedTotal d.total acc'.length = true then
        Except.ok (acc', count + 1)
      else
        fetchLoop api fuel (page + 1) acc' (count + 1)

/-- The whole pagination phase: `page` starts at 1, `hasMore` at `true`,
`allProducts` empty (lines 87-91), and the guard allows at most 50
iterations. -/
def fetchAllProducts (api : Nat → Option PageData) :
    Except Nat (List Product × Nat) :=
  fetchLoop api pageCap 1 [] 0

/-- `p.availableQuantity || 0` (lines 122-125). -/
def qtyOf (p : Product) : Rat :=
  p.availableQuantity.getD 0

/-- `p.price || 0` (line 123). -/
def priceOf (p : Product) : Rat :=
  p.price.getD 0

/-- `allProducts.length` (line 121). -/
def totalProducts (l : List Product) : Nat :=
  l.length

/-- `allProducts.reduce((acc, p) => acc + (p.availableQuantity || 0), 0)`
(line 122). -/
def totalStock (l : List Product) : Rat :=
  l.foldl (fun acc p => acc + qtyOf p) 0

/-- `allProducts.reduce((acc, p) => acc + ((p.price || 0) * (p.availableQuantity || 0)), 0)`
(line 123). -/
def totalValue (l : List Product) : Rat :=
  l.foldl (fun acc p => acc + priceOf p * qtyOf p) 0

/-- The low-stock predicate of line 124:
`(p.availableQuantity || 0) > 0 && (p.availableQuantity || 0) <= 80`. -/
def isLowStock (p : Product) : Bool :=
  decide (0 < qtyOf p) && decide (qtyOf p ≤ 80)

/-- The out-of-stock predicate of line 125: `(p.availableQuantity || 0) === 0`. -/
def isOutOfStock (p : Product) : Bool :=
  decide (qtyOf p = 0)

/-- `allProducts.filter(...).length` for low stock (line 124). -/
def lowStockProducts (l : List Product) : Nat :=
  (l.filter isLowStock).length

/-- `allProducts.filter(...).length` for out of stock (line 125). -/
def outOfStockProducts (l : List Product) : Nat :=
  (l.filter isOutOfStock).length

/-- One row of the `daily_stock_snapshots` table, as written by the upsert of
lines 136-143. -/
structure SnapshotRow where
  date : String
  total_products : Nat
  total_stock : Rat
  total_value : Rat
  low_stock_products : Nat
  out_of_stock_products : Nat
deriving DecidableEq, Repr

/-- The row the job writes for a given day from the fetched items
(lines 136-143). -/
def snapshotOf (today : String) (ps : List Product) : SnapshotRow :=
  { date := today
    total_products := totalProducts ps
    total_stock := totalStock ps
    total_value := totalValue ps
    low_stock_products := lowStockProducts ps
    out_of_stock_products := outOfStockProducts ps }

/-- The rows of a table state holding a given date. -/
def rowsForDate (table : List SnapshotRow) (d : String) : List SnapshotRow :=
  table.filter (fun r => decide (r.date = d))

/-- Modelled from the spec: the database upsert keyed by the `date` column
(`upsert(..., { onConflict: 'date' })`, lines 134-145). The insert-or-update
semantics and the uniqueness constraint on `date` live in the backend
provider and in a migration that is not among the provided sources; per the
spec, an existing row for the date is overwritten in place and otherwise the
row is inserted. -/
def upsertByDate (table : List SnapshotRow) (r : SnapshotRow) :
    List SnapshotRow :=
  if table.any (fun row => decide (row.date = r.date)) then
    table.map (fun row => if row.date = r.date then r else row)
  else
    table ++ [r]

/-- The parsed request body (line 64): `none` models a missing or falsy
field, which the check `if (!apiUrl || !apiToken)` of line 66 rejects.
`authHeader` is the `Authorization` header of line 40. -/
structure ReqModel where
  authHeader : Option String
  apiUrl : Option String
  apiToken : Option String
deriving DecidableEq, Repr

/-- Oracles for the external effects the handler consumes: `userValid` is
the outcome of `supabase.auth.getUser()` (line 56), `urlValid u` the outcome
of `new URL(u)` plus the http/https protocol test (lines 74-78), `api` the
upstream catalog fetches, `dbOk` the outcome of the database upsert
(line 147), and `today` the server-side date string of line 131. -/
structure Ctx where
  userValid : Bool
  urlValid : String → Bool
  api : Nat → Option PageData
  dbOk : Bool
  today : String

/-- What one invocation produces: the HTTP status of the response, the
snapshot-table state after the run, and the number of upstream catalog
requests issued. -/
structure Outcome where
  status : Nat
  table : List SnapshotRow
  upstreamCalls : Nat
deriving Repr

/-- The request handler (lines 38-172), for a non-OPTIONS request whose JSON
body parsed: auth-header check (401), `getUser` check (401), missing
`apiUrl`/`apiToken` (400), URL validation (400), the page-fetch loop (a
throw anywhere lands in the catch block, 500), the single upsert (500 on
failure), and the 200 success response. -/
def handle (ctx : Ctx) (req : ReqModel) (table : List SnapshotRow) : Outcome :=
  match req.authHeader with
  | none => { status := 401, table := table, upstreamCalls := 0 }
  | some _ =>
    if ctx.userValid = false then
      { status := 401, table := table, upstreamCalls := 0 }
    else
      match req.apiUrl, req.apiToken with
      | some u, some _ =>
        if ctx.urlValid u = false then
          { status := 400, table := table, upstreamCalls := 0 }
        else
          match fetchAllProducts ctx.api with
          | Except.error k => { status := 500, table := table, upstreamCalls := k }
          | Except.ok (ps, n) =>
            if ctx.dbOk then
              { status := 200
                table := upsertByDate table (snapshotOf ctx.today ps)
                upstreamCalls := n }
            else
              { status := 500, table := table, upstreamCalls := n }
      | _, _ => { status := 400, table := table, upstreamCalls := 0 }

/-! Helper lemmas shared by several claims. -/

theorem foldl_add_eq (f : Product → Rat) :
    ∀ (l : List Product) (a : Rat),
      l.foldl (fun acc p => acc + f p) a = a + (l.map f).sum := by
  intro l
  induction l with
  | nil => intro a; simp
  | cons p t ih =>
    intro a
    simp [List.foldl_cons, ih, add_assoc]

theorem totalStock_eq_sum (l : List Product) :
    totalStock l = (l.map qtyOf).sum := by
  simpa [totalStock] using foldl_add_eq qtyOf l 0

theorem totalValue_eq_sum (l : List Product) :
    totalValue l = (l.map (fun p => priceOf p * qtyOf p)).sum := by
  simpa [totalValue] using foldl_add_eq (fun p => priceOf p * qtyOf p) l 0

theorem filter_disjoint_length (p q : Product → Bool)
    (hpq : ∀ x, ¬(p x = true ∧ q x = true)) :
    ∀ l : List Product, (l.filter p).length + (l.filter q).length ≤ l.length := by
  intro l
  induction l with
  | nil => simp
  | cons a t ih =>
    cases hp : p a with
    | false =>
      cases hq : q a with
      | false =>
        simp only [List.filter_cons, hp, hq, Bool.false_eq_true, if_false,
          List.length_cons]
        omega
      | true =>
        simp only [List.filter_cons, hp, hq, Bool.false_eq_true, if_false,
          if_true, List.length_cons]
        omega
    | true =>
      cases hq : q a with
      | false =>
        simp only [List.filter_cons, hp, hq, Bool.false_eq_true, if_false,
          if_true, List.length_cons]
        omega
      | true => exact absurd ⟨hp, hq⟩ (hpq a)

/-- Claim C1: for every list of fetched catalog items, the snapshot job computes
`totalProducts` equal to the number of items, `totalStock` equal to the sum
of per-item available quantities, and `totalValue` equal to the sum over
items of price × available quantity. -/
theorem snapshot_totals (l : List Product) :
    totalProducts l = l.length ∧
    totalStock l = (l.map qtyOf).sum ∧
    totalValue l = (l.map (fun p => priceOf p * qtyOf p)).sum :=
  ⟨rfl, totalStock_eq_sum l, totalValue_eq_sum l⟩

/-- Claim C2: an item with quantity exactly 0 is counted in `outOfStockProducts`
and never in `lowStockProducts`; an item with quantity in (0, 80] is counted
in `lowStockProducts` and never in `outOfStockProducts`; no item is counted
in both, so the two counts together never exceed the item count. -/
theorem low_out_of_stock_exclusive (p : Product) (l : List Product) :
    (qtyOf p = 0 → isOutOfStock p = true ∧ isLowStock p = false) ∧
    (0 < qtyOf p ∧ qtyOf p ≤ 80 → isLowStock p = true ∧ isOutOfStock p = false) ∧
    ¬(isLowStock p = true ∧ isOutOfStock p = true) ∧
    lowStockProducts l + outOfStockProducts l ≤ totalProducts l := by
  refine ⟨?_, ?_, ?_, ?_⟩
  · intro h
    simp [isOutOfStock, isLowStock, h]
  · rintro ⟨h1, h2⟩
    constructor
    · simp [isLowStock, h1, h2]
    · simp [isOutOfStock]
      exact ne_of_gt h1
  · rintro ⟨hlow, hout⟩
    simp [isLowStock, isOutOfStock] at hlow hout
    exact absurd hout (ne_of_gt hlow.1)
  · refine filter_disjoint_length isLowStock isOutOfStock ?_ l
    rintro x ⟨hlow, hout⟩
    simp [isLowStock, isOutOfStock] at hlow hout
    exact absurd hout (ne_of_gt hlow.1)

/-- A concrete in-range item for the witness of C2. -/
def pFive : Product := { availableQuantity := some 5, price := some 2 }

/-- Witness for C2 at an item of quantity 5. -/
theorem low_out_of_stock_exclusive_witness :
    isLowStock pFive = true ∧ isOutOfStock pFive = false :=
  (low_out_of_stock_exclusive pFive []).2.1 (by constructor <;> decide)

/-- Claim C9: an item whose `availableQuantity` is missing (or otherwise falsy) is
treated as quantity 0: it adds nothing to `totalStock` or `totalValue`, it
is counted in `outOfStockProducts`, and it still counts toward
`totalProducts`; likewise a missing price contributes 0 to `totalValue`. -/
theorem falsy_fields_default_to_zero (p : Product) (l : List Product)
    (hq : p.availableQuantity = none) :
    qtyOf p = 0 ∧
    totalProducts (p :: l) = totalProducts l + 1 ∧
    totalStock (p :: l) = totalStock l ∧
    totalValue (p :: l) = totalValue l ∧
    isOutOfStock p = true ∧
    outOfStockProducts (p :: l) = outOfStockProducts l + 1 ∧
    (∀ r : Product, r.price = none → priceOf r = 0 ∧ priceOf r * qtyOf r = 0) := by
  have hq0 : qtyOf p = 0 := by simp [qtyOf, hq]
  refine ⟨hq0, rfl, ?_, ?_, ?_, ?_, ?_⟩
  · simp [totalStock_eq_sum, hq0]
  · simp [totalValue_eq_sum, hq0]
  · simp [isOutOfStock, hq0]
  · have hout : isOutOfStock p = true := by simp [isOutOfStock, hq0]
    simp [outOfStockProducts, List.filter_cons, hout]
  · intro r hr
    have : priceOf r = 0 := by simp [priceOf, hr]
    exact ⟨this, by simp [this]⟩

/-- A concrete item with both fields absent, for the witness of C9. -/
def pAbsent : Product := { availableQuantity := none, price := none }

/-- Witness for C9 at an item with no quantity field. -/
theorem falsy_fields_default_to_zero_witness :
    qtyOf pAbsent = 0 ∧ totalStock [pAbsent] = totalStock [] :=
  ⟨(falsy_fields_default_to_zero pAbsent [] rfl).1,
   (falsy_fields_default_to_zero pAbsent [] rfl).2.2.1⟩

theorem fetchLoop_count_le (api : Nat → Option PageData) (fuel : Nat) :
    ∀ (page count : Nat) (acc l : List Product) (n : Nat),
      fetchLoop api fuel page acc count = Except.ok (l, n) → n ≤ count + fuel := by
  induction fuel with
  | zero =>
    intro page count acc l n h
    simp only [fetchLoop, Except.ok.injEq, Prod.mk.injEq] at h
    omega
  | succ fuel ih =>
    intro page count acc l n h
    cases hapi : api page with
    | none =>
      simp only [fetchLoop, hapi] at h
      exact absurd h (by simp)
    | some d =>
      simp only [fetchLoop, hapi] at h
      split at h
      · simp only [Except.ok.injEq, Prod.mk.injEq] at h
        omega
      · have := ih (page + 1) (count + 1) (acc ++ pageProducts d) l n h
        omega

/-- Claim C3: the page-fetch loop uses a page size of 100 and a cap of 50 pages;
it halts with what it has when the fuel of the `page <= 50` guard runs out,
halts right after a page that is short or that brings the accumulated count
up to the API-reported total, continues to the next page otherwise, and in
every successful run fetches at most 50 pages. -/
theorem pagination_halting (api : Nat → Option PageData) :
    limit = 100 ∧ pageCap = 50 ∧
    (∀ page acc count, fetchLoop api 0 page acc count = Except.ok (acc, count)) ∧
    (∀ fuel page acc count d, api page = some d →
      (((pageProducts d).length < limit ∨
          reachedTotal d.total ((acc ++ pageProducts d).length) = true) →
        fetchLoop api (fuel + 1) page acc count =
          Except.ok (acc ++ pageProducts d, count + 1)) ∧
      (¬((pageProducts d).length < limit ∨
          reachedTotal d.total ((acc ++ pageProducts d).length) = true) →
        fetchLoop api (fuel + 1) page acc count =
          fetchLoop api fuel (page + 1) (acc ++ pageProducts d) (count + 1))) ∧
    (∀ l n, fetchAllProducts api = Except.ok (l, n) → n ≤ 50) := by
  refine ⟨rfl, rfl, fun page acc count => rfl, ?_, ?_⟩
  · intro fuel page acc count d hapi
    constructor
    · intro hstop
      simp only [fetchLoop, hapi]
      rw [if_pos hstop]
    · intro hcont
      simp only [fetchLoop, hapi]
      rw [if_neg hcont]
  · intro l n h
    have hb := fetchLoop_count_le api pageCap 1 0 [] l n h
    simpa [pageCap] using hb

/-- A one-page upstream for the witness of C3. -/
def apiOne : Nat → Option PageData :=
  fun _ => some { results := some [pFive], data := none, products := none, total := none }

/-- Witness for C3: a run against a one-short-page upstream fetches one page,
within the 50-page bound. -/
theorem pagination_halting_witness :
    fetchAllProducts apiOne = Except.ok ([pFive], 1) ∧ 1 ≤ 50 :=
  ⟨rfl, (pagination_halting apiOne).2.2.2.2 [pFive] 1 rfl⟩

/-- The two upstream pages of the spec's 120-item example. -/
def apiTwoPages : Nat → Option PageData :=
  fun page =>
    if page = 1 then
      some { results := some (List.replicate 100 pFive), data := none,
             products := none, total := some 120 }
    else if page = 2 then
      some { results := some (List.replicate 20 pFive), data := none,
             products := none, total := some 120 }
    else none

/-- Claim C8: against a catalog reporting 120 items served as a page of 100
followed by a page of 20, the job fetches exactly 2 pages and aggregates
all 120 items. -/
theorem two_pages_120_items :
    fetchAllProducts apiTwoPages =
      Except.ok (List.replicate 100 pFive ++ List.replicate 20 pFive, 2) ∧
    totalProducts (List.replicate 100 pFive ++ List.replicate 20 pFive) = 120 := by
  constructor
  · rfl
  · simp [totalProducts]

/-- Claim C10: a page body none of whose three item keys is present — or whose
first present key holds an empty array — contributes an empty item list,
which is shorter than the page size, so the loop halts right after that page
with the items fetched so far. -/
theorem empty_products_page_halts (api : Nat → Option PageData)
    (fuel page count : Nat) (acc : List Product) (d : PageData)
    (hapi : api page = some d)
    (hkeys : (d.results = none ∧ d.data = none ∧ d.products = none) ∨
      d.results = some [] ∨
      (d.results = none ∧ d.data = some []) ∨
      (d.results = none ∧ d.data = none ∧ d.products = some [])) :
    pageProducts d = [] ∧
    fetchLoop api (fuel + 1) page acc count = Except.ok (acc, count + 1) := by
  have hp : pageProducts d = [] := by
    rcases hkeys with ⟨h1, h2, h3⟩ | h1 | ⟨h1, h2⟩ | ⟨h1, h2, h3⟩
    · simp [pageProducts, h1, h2, h3]
    · simp [pageProducts, h1]
    · simp [pageProducts, h1, h2]
    · simp [pageProducts, h1, h2, h3]
  refine ⟨hp, ?_⟩
  simp only [fetchLoop, hapi, hp]
  rw [if_pos (Or.inl (by norm_num [limit]))]
  simp

/-- A page body with no item key at all, for the witness of C10. -/
def pageEmptyKeys : PageData :=
  { results := none, data := none, products := none, total := some 7 }

/-- An upstream always answering with `pageEmptyKeys`, for the witness of C10. -/
def apiEmptyKeys : Nat → Option PageData := fun _ => some pageEmptyKeys

/-- Witness for C10: the keyless page yields no items and the loop stops
after fetching it once. -/
theorem empty_products_page_halts_witness :
    pageProducts pageEmptyKeys = [] ∧
    fetchLoop apiEmptyKeys 50 1 [] 0 = Except.ok ([], 1) :=
  empty_products_page_halts apiEmptyKeys 49 1 0 [] pageEmptyKeys rfl
    (Or.inl ⟨rfl, rfl, rfl⟩)

theorem filter_map_replace (r : SnapshotRow) :
    ∀ table : List SnapshotRow,
      (table.map (fun row => if row.date = r.date then r else row)).filter
          (fun row => decide (row.date = r.date)) =
        List.replicate
          ((table.filter (fun row => decide (row.date = r.date))).length) r := by
  intro table
  induction table with
  | nil => rfl
  | cons a t ih =>
    by_cases ha : a.date = r.date
    · simp [List.map_cons, ha, List.filter_cons, ih, List.replicate_succ]
    · simp [List.map_cons, ha, List.filter_cons, ih]

theorem rowsForDate_upsert (table : List SnapshotRow) (r : SnapshotRow)
    (h : (rowsForDate table r.date).length ≤ 1) :
    rowsForDate (upsertByDate table r) r.date = [r] := by
  unfold upsertByDate
  by_cases hc : table.any (fun row => decide (row.date = r.date)) = true
  · rw [if_pos hc]
    obtain ⟨x, hx, hpx⟩ := List.any_eq_true.mp hc
    have hmem : x ∈ table.filter (fun row => decide (row.date = r.date)) :=
      List.mem_filter.mpr ⟨hx, hpx⟩
    have hlen : 1 ≤ (table.filter (fun row => decide (row.date = r.date))).length :=
      List.length_pos.mpr (List.ne_nil_of_mem hmem)
    have hone : (table.filter (fun row => decide (row.date = r.date))).length = 1 :=
      le_antisymm (by simpa [rowsForDate] using h) hlen
    unfold rowsForDate
    rw [filter_map_replace r table, hone]
    rfl
  · rw [if_neg hc]
    have hall : ∀ x ∈ table, ¬(decide (x.date = r.date) = true) := by
      intro x hx hpx
      exact hc (List.any_eq_true.mpr ⟨x, hx, hpx⟩)
    unfold rowsForDate
    rw [List.filter_append]
    have hnil : table.filter (fun row => decide (row.date = r.date)) = [] :=
      List.filter_eq_nil_iff.mpr hall
    simp [hnil]

/-- Claim C4: starting from any table state holding at most one row for a date,
two successive upserts of rows for that same date leave exactly one row for
the date, and that row is the one written second. -/
theorem snapshot_upsert_idempotent (table : List SnapshotRow)
    (r1 r2 : SnapshotRow) (hd : r1.date = r2.date)
    (hu : (rowsForDate table r2.date).length ≤ 1) :
    rowsForDate (upsertByDate (upsertByDate table r1) r2) r2.date = [r2] ∧
    (rowsForDate (upsertByDate (upsertByDate table r1) r2) r2.date).length = 1 := by
  have h1 : rowsForDate (upsertByDate table r1) r1.date = [r1] :=
    rowsForDate_upsert table r1 (by rw [hd]; exact hu)
  rw [hd] at h1
  have h2 : (rowsForDate (upsertByDate table r1) r2.date).length ≤ 1 := by
    rw [h1]
    exact le_refl 1
  have h3 := rowsForDate_upsert (upsertByDate table r1) r2 h2
  exact ⟨h3, by rw [h3]; rfl⟩

/-- A first concrete snapshot row for the witness of C4. -/
def rowA : SnapshotRow :=
  { date := "2026-01-05", total_products := 1, total_stock := 2,
    total_value := 3, low_stock_products := 0, out_of_stock_products := 0 }

/-- A second concrete snapshot row, same date as `rowA`, for the witness of C4. -/
def rowB : SnapshotRow :=
  { date := "2026-01-05", total_products := 4, total_stock := 5,
    total_value := 6, low_stock_products := 1, out_of_stock_products := 2 }

/-- Witness for C4: upserting `rowA` then `rowB` into an empty table leaves
exactly the row `rowB` for their shared date. -/
theorem snapshot_upsert_idempotent_witness :
    rowsForDate (upsertByDate (upsertByDate [] rowA) rowB) rowB.date = [rowB] :=
  (snapshot_upsert_idempotent [] rowA rowB rfl (Nat.zero_le 1)).1

/-- Claim C7: a request with a missing `Authorization` header, or one whose token
`getUser` rejects, is answered with status 401, with no upstream catalog
call made and the snapshot table untouched. -/
theorem unauthenticated_rejected_401 (ctx : Ctx) (req : ReqModel)
    (table : List SnapshotRow)
    (h : req.authHeader = none ∨ ctx.userValid = false) :
    (handle ctx req table).status = 401 ∧
    (handle ctx req table).upstreamCalls = 0 ∧
    (handle ctx req table).table = table := by
  rcases h with h | h
  · simp [handle, h]
  · cases ha : req.authHeader with
    | none => simp [handle, ha]
    | some a => simp [handle, ha, h]

/-- A context whose oracles all succeed, for the witness of C7. -/
def ctxOk : Ctx :=
  { userValid := true, urlValid := fun _ => true, api := apiOne,
    dbOk := true, today := "2026-01-05" }

/-- A request with no `Authorization` header, for the witness of C7. -/
def reqNoAuth : ReqModel :=
  { authHeader := none, apiUrl := some "https://api.example.com",
    apiToken := some "tok" }

/-- Witness for C7 at a concrete header-less request. -/
theorem unauthenticated_rejected_401_witness :
    (handle ctxOk reqNoAuth []).status = 401 ∧
    (handle ctxOk reqNoAuth []).upstreamCalls = 0 ∧
    (handle ctxOk reqNoAuth []).table = [] :=
  unauthenticated_rejected_401 ctxOk reqNoAuth [] (Or.inl rfl)

/-- Claim C5: on every run in which the upstream fetch phase fails, the base URL
is rejected, or a credential field is missing, the response is an error
status and the snapshot table is exactly what it was: the single upsert of
line 134 only runs after the whole fetch loop succeeded. -/
theorem failing_run_writes_nothing (ctx : Ctx) (req : ReqModel)
    (table : List SnapshotRow)
    (h : (∃ k, fetchAllProducts ctx.api = Except.error k) ∨
      req.apiUrl = none ∨ req.apiToken = none ∨
      (∃ u, req.apiUrl = some u ∧ ctx.urlValid u = false)) :
    (handle ctx req table).status ≠ 200 ∧
    (handle ctx req table).table = table := by
  cases ha : req.authHeader with
  | none => simp [handle, ha]
  | some a =>
    by_cases hv : ctx.userValid = false
    · simp [handle, ha, hv]
    · have huser : ctx.userValid = true := by
        revert hv; cases ctx.userValid <;> simp
      cases hurl : req.apiUrl with
      | none => cases ht : req.apiToken <;> simp [handle, ha, huser, hurl, ht]
      | some u =>
        cases ht : req.apiToken with
        | none => simp [handle, ha, huser, hurl, ht]
        | some t =>
          by_cases hval : ctx.urlValid u = false
          · simp [handle, ha, huser, hurl, ht, hval]
          · have hvt : ctx.urlValid u = true := by
              revert hval; cases ctx.urlValid u <;> simp
            rcases h with ⟨k, hk⟩ | h | h | ⟨u', hu', hv'⟩
            · simp [handle, ha, huser, hurl, ht, hvt, hk]
            · rw [hurl] at h; exact absurd h (by simp)
            · rw [ht] at h; exact absurd h (by simp)
            · rw [hurl] at hu'
              have : u' = u := by
                injection hu' with he; exact he.symm
              rw [this] at hv'
              exact absurd hv' hval

/-- A context whose upstream fetch always fails, for the witness of C5. -/
def ctxFetchFail : Ctx :=
  { userValid := true, urlValid := fun _ => true, api := fun _ => none,
    dbOk := true, today := "2026-01-05" }

/-- A fully valid request, for the witnesses of C5. -/
def reqValid : ReqModel :=
  { authHeader := some "Bearer jwt", apiUrl := some "https://api.example.com",
    apiToken := some "tok" }

/-- Witness for C5: a run whose very first upstream fetch fails changes
nothing and does not answer 200. -/
theorem failing_run_writes_nothing_witness :
    (handle ctxFetchFail reqValid []).status ≠ 200 ∧
    (handle ctxFetchFail reqValid []).table = [] :=
  failing_run_writes_nothing ctxFetchFail reqValid [] (Or.inl ⟨1, rfl⟩)

/-- A context that rejects every URL, for C6. -/
def ctxBadUrl : Ctx :=
  { userValid := true, urlValid := fun _ => false, api := fun _ => none,
    dbOk := true, today := "2026-01-05" }

/-- An unauthenticated request carrying the malformed URL of the spec's
example, for the counterexample of C6. -/
def reqNoAuthBadUrl : ReqModel :=
  { authHeader := none, apiUrl := some "not-a-url", apiToken := some "tok" }

/-- Counterexample to C6 as stated: a request whose `apiUrl` is the
malformed string but which also lacks the `Authorization` header is answered
401, not 400, because the auth checks of lines 40-62 run first. -/
theorem invalid_url_unauthenticated_counterexample :
    reqNoAuthBadUrl.apiUrl = some "not-a-url" ∧
    ctxBadUrl.urlValid "not-a-url" = false ∧
    (handle ctxBadUrl reqNoAuthBadUrl []).status = 401 ∧
    ¬((handle ctxBadUrl reqNoAuthBadUrl []).status = 400) := by
  refine ⟨rfl, rfl, rfl, ?_⟩
  intro hcontra
  simp [handle, reqNoAuthBadUrl] at hcontra

/-- Claim C6, amended: for every request that passes both caller-authentication
checks, a missing `apiUrl` or `apiToken`, or an `apiUrl` the URL validation
rejects, is answered 400 with no upstream call and no write. -/
theorem invalid_input_rejected_400 (ctx : Ctx) (req : ReqModel)
    (table : List SnapshotRow)
    (hauth : req.authHeader.isSome = true) (huser : ctx.userValid = true)
    (hbad : req.apiUrl = none ∨ req.apiToken = none ∨
      (∃ u, req.apiUrl = some u ∧ ctx.urlValid u = false)) :
    (handle ctx req table).status = 400 ∧
    (handle ctx req table).upstreamCalls = 0 ∧
    (handle ctx req table).table = table := by
  cases ha : req.authHeader with
  | none => rw [ha] at hauth; simp at hauth
  | some a =>
    rcases hbad with h | h | ⟨u, hu, hv⟩
    · cases ht : req.apiToken <;> simp [handle, ha, huser, h, ht]
    · cases hurl : req.apiUrl with
      | none => simp [handle, ha, huser, hurl]
      | some u => simp [handle, ha, huser, hurl, h]
    · cases ht : req.apiToken with
      | none => simp [handle, ha, huser, hu, ht]
      | some t => simp [handle, ha, huser, hu, ht, hv]

/-- An authenticated request carrying the malformed URL, for the witness of
the amended C6. -/
def reqAuthBadUrl : ReqModel :=
  { authHeader := some "Bearer jwt", apiUrl := some "not-a-url",
    apiToken := some "tok" }

/-- Witness for the amended C6 at the authenticated malformed-URL request. -/
theorem invalid_input_rejected_400_witness :
    (handle ctxBadUrl reqAuthBadUrl []).status = 400 ∧
    (handle ctxBadUrl reqAuthBadUrl []).upstreamCalls = 0 ∧
    (handle ctxBadUrl reqAuthBadUrl []).table = [] :=
  invalid_input_rejected_400 ctxBadUrl reqAuthBadUrl [] rfl rfl
    (Or.inr (Or.inr ⟨"not-a-url", rfl, rfl⟩))

end StockDash
